import Mathlib

/-
Verification of the geoana-docs notebooks (magnetostatic vector potential and
total magnetic field visualizations) against their design specification.

The development shallowly embeds the notebooks own computational logic:
the inclination/declination to Cartesian orientation converter, the
flatten/reshape conventions of the amplitude and streamline renderers, the
sampling-grid construction, the pipeline from slider parameters to the
arguments handed to the external field evaluator, and the slider ranges of
the interactive controls.  Floating point numbers are modelled as real
numbers; flat numpy arrays of length n*m are modelled by their entry maps
from natural-number indices (a reshape only ever reads indices below n*m).
-/

namespace Geoana

open Real

/-- A 3-component Cartesian vector, as used for locations, orientations and
field samples in the notebooks. -/
structure Vec3 where
  x : ℝ
  y : ℝ
  z : ℝ

/-- Euclidean norm of a 3-vector. -/
noncomputable def Vec3.norm (v : Vec3) : ℝ :=
  Real.sqrt (v.x ^ 2 + v.y ^ 2 + v.z ^ 2)

/-- Conversion from degrees to radians. -/
noncomputable def deg2rad (θ : ℝ) : ℝ :=
  θ * π / 180

/-- The orientation converter of the total-field notebook, embedded from

    def id_to_cartesian(inclination, declination):
        ux = np.cos(inclination/180.*np.pi)*np.sin(declination/180.*np.pi)
        uy = np.cos(inclination/180.*np.pi)*np.cos(declination/180.*np.pi)
        uz = -np.sin(inclination/180.*np.pi)
        return np.r_[ux, uy, uz]
-/
noncomputable def id_to_cartesian (inclination declination : ℝ) : Vec3 where
  x := Real.cos (inclination / 180 * π) * Real.sin (declination / 180 * π)
  y := Real.cos (inclination / 180 * π) * Real.cos (declination / 180 * π)
  z := -Real.sin (inclination / 180 * π)

/-
Flatten/reshape conventions of the renderers.

A flat numpy array of length n*m is modelled by its entry map from
natural-number indices; a reshape only ever reads indices below n*m.
A 2D array of shape (n, m) is a function from a pair of in-range indices.
-/

/-- Row-major (C order) reshape of a flat array into shape (n, m): entry
(i, j) is flat entry i*m + j.  This is the reshape of the vector-potential
amplitude renderer, v.reshape(len(x), len(y), order C). -/
def reshapeC (n m : ℕ) (v : ℕ → α) : Fin n → Fin m → α :=
  fun i j => v (i.1 * m + j.1)

/-- Column-major (F order) reshape of a flat array into shape (n, m): entry
(i, j) is flat entry i + j*n.  This is the reshape of the streamline
renderer, v.reshape(len(x), len(y), order F), and of the total-field
amplitude renderer. -/
def reshapeF (n m : ℕ) (v : ℕ → α) : Fin n → Fin m → α :=
  fun i j => v (i.1 + j.1 * n)

/-- Transpose of a 2D array, as numpy .T applied by the streamline renderer
before handing the reshaped components to streamplot. -/
def transpose (A : Fin n → Fin m → α) : Fin m → Fin n → α :=
  fun j i => A i j

/-- Row-major (C order) flatten of a 2D array of shape (n, m): flat entry k
is entry (k / m, k % m); indices at or beyond n*m give the default value,
which no matching reshape ever reads. -/
def flattenC (n m : ℕ) [Inhabited α] (g : Fin n → Fin m → α) : ℕ → α :=
  fun k =>
    if h : k / m < n ∧ k % m < m then g ⟨k / m, h.1⟩ ⟨k % m, h.2⟩ else default

/-- Column-major (F order) flatten of a 2D array of shape (n, m): flat entry
k is entry (k % n, k / n); indices at or beyond n*m give the default value,
which no matching reshape ever reads. -/
def flattenF (n m : ℕ) [Inhabited α] (g : Fin n → Fin m → α) : ℕ → α :=
  fun k =>
    if h : k % n < n ∧ k / n < m then g ⟨k % n, h.1⟩ ⟨k / n, h.2⟩ else default

/-- Transposing the column-major reshape of a flat array gives the row-major
reshape of the same array into the swapped shape. -/
lemma transpose_reshapeF (n m : ℕ) (v : ℕ → α) :
    transpose (reshapeF n m v) = reshapeC m n v := by
  funext j i
  simp only [transpose, reshapeF, reshapeC]
  ring_nf

/-- Claim C1: the orientation converter returns the 3-vector
(cos i * sin d, cos i * cos d, -sin i) with both angles converted from
degrees to radians before the trigonometric functions are applied. -/
theorem C1_id_to_cartesian_formula (inclination declination : ℝ) :
    id_to_cartesian inclination declination =
      ⟨Real.cos (deg2rad inclination) * Real.sin (deg2rad declination),
       Real.cos (deg2rad inclination) * Real.cos (deg2rad declination),
       -Real.sin (deg2rad inclination)⟩ := by
  have h : ∀ θ : ℝ, θ / 180 * π = deg2rad θ := by
    intro θ; unfold deg2rad; ring
  simp only [id_to_cartesian, h]

/-- Claim C4: for every pair of inclination and declination angles, the
vector returned by the orientation converter has Euclidean norm 1. -/
theorem C4_id_to_cartesian_unit_norm (inclination declination : ℝ) :
    (id_to_cartesian inclination declination).norm = 1 := by
  unfold id_to_cartesian Vec3.norm
  have key :
      (Real.cos (inclination / 180 * π) * Real.sin (declination / 180 * π)) ^ 2 +
        (Real.cos (inclination / 180 * π) * Real.cos (declination / 180 * π)) ^ 2 +
        (-Real.sin (inclination / 180 * π)) ^ 2 = 1 := by
    have hd := Real.sin_sq_add_cos_sq (declination / 180 * π)
    have hi := Real.sin_sq_add_cos_sq (inclination / 180 * π)
    nlinarith [hd, hi]
  rw [key, Real.sqrt_one]

/-- Claim C7: at inclination 0 and declination 0 the converter returns
(0, 1, 0); at inclination 90 and declination 0 it returns (0, 0, -1). -/
theorem C7_id_to_cartesian_reference_points :
    id_to_cartesian 0 0 = ⟨0, 1, 0⟩ ∧ id_to_cartesian 90 0 = ⟨0, 0, -1⟩ := by
  constructor
  · unfold id_to_cartesian
    norm_num
  · unfold id_to_cartesian
    have h90 : (90 : ℝ) / 180 * π = π / 2 := by ring
    have h0 : (0 : ℝ) / 180 * π = 0 := by ring
    rw [h90, h0]
    simp [Real.cos_pi_div_two, Real.sin_pi_div_two]

/-- Claim C3: for every flat array, reshaping into shape (len x, len y) in
column-major F order and then transposing — exactly what the streamline
renderer does with vx.T and vy.T — equals reshaping into shape
(len y, len x) in row-major C order, so the arrays handed to streamplot are
in the same row-major convention as the amplitude renderer uses. -/
theorem C3_streamline_transpose_is_rowmajor (n m : ℕ) (v : ℕ → ℝ) :
    transpose (reshapeF n m v) = reshapeC m n v :=
  transpose_reshapeF n m v

/-- Claim C2, counterexample: on the 100-by-100 grid both renderers are
called with, the 2D array the amplitude renderer passes to pcolormesh (its
row-major reshape) never differs from the 2D array the streamline renderer
actually passes to streamplot (its column-major reshape followed by the
transpose), for any flat sample array: the two passed arrays coincide. -/
theorem C2_counterexample :
    ¬ ∃ v : ℕ → ℝ, reshapeC 100 100 v ≠ transpose (reshapeF 100 100 v) := by
  rintro ⟨v, hv⟩
  exact hv (transpose_reshapeF 100 100 v).symm

/-- Claim C2, amended: the amplitude renderer and the streamline renderer
use different reshape orderings — for some flat sample array of length
len(x)*len(y), the row-major reshape the amplitude renderer computes
differs from the column-major reshape the streamline renderer computes
(before the transpose it applies when calling streamplot). -/
theorem C2_reshape_orders_differ :
    ∃ v : ℕ → ℝ, reshapeC 100 100 v ≠ reshapeF 100 100 v := by
  refine ⟨fun k => (k : ℝ), fun h => ?_⟩
  have h01 := congrFun (congrFun h ⟨0, by norm_num⟩) ⟨1, by norm_num⟩
  simp only [reshapeC, reshapeF] at h01
  norm_num at h01

/-- Claim C5: flattening a 2D grid of shape (len x, len y) and reshaping
the flat result back into that shape with the matching order reproduces the
original grid exactly, both for the row-major C order used by the
vector-potential amplitude renderer and for the column-major F order used
by the total-field amplitude renderer. -/
theorem C5_flatten_reshape_roundtrip (n m : ℕ) (g : Fin n → Fin m → ℝ) :
    reshapeC n m (flattenC n m g) = g ∧ reshapeF n m (flattenF n m g) = g := by
  constructor
  · funext i j
    have hm : 0 < m := j.pos
    have hdiv : (i.1 * m + j.1) / m = i.1 := by
      rw [mul_comm, Nat.mul_add_div hm, Nat.div_eq_of_lt j.isLt, Nat.add_zero]
    have hmod : (i.1 * m + j.1) % m = j.1 := by
      rw [mul_comm, Nat.mul_add_mod, Nat.mod_eq_of_lt j.isLt]
    simp only [reshapeC, flattenC, hdiv, hmod, i.isLt, j.isLt, and_self,
      dite_true, Fin.eta]
  · funext i j
    have hn : 0 < n := i.pos
    have hmod : (i.1 + j.1 * n) % n = i.1 := by
      rw [Nat.add_mul_mod_self_right, Nat.mod_eq_of_lt i.isLt]
    have hdiv : (i.1 + j.1 * n) / n = j.1 := by
      rw [Nat.add_mul_div_right _ _ hn, Nat.div_eq_of_lt i.isLt, Nat.zero_add]
    simp only [reshapeF, flattenF, hdiv, hmod, i.isLt, j.isLt, and_self,
      dite_true, Fin.eta]

/-
Grid construction.
-/

/-- numpy.linspace: n evenly spaced samples over the closed interval from a
to b, sample i being a + (b - a) * i / (n - 1). -/
noncomputable def linspace (a b : ℝ) (n : ℕ) : List ℝ :=
  (List.range n).map (fun i : ℕ => a + (b - a) * (i : ℝ) / ((n : ℝ) - 1))

/-- Modelled from the spec: geoana.utils.ndgrid is part of the external
geoana library, not of this repository; the spec describes grid
construction as producing the Cartesian product of the two axes with the
fixed third coordinate, as a sequence of 3D points.  The first axis varies
fastest; the claims below do not depend on the ordering. -/
def ndgrid (xs ys zs : List ℝ) : List Vec3 :=
  zs.flatMap (fun z => ys.flatMap (fun y => xs.map (fun x => ⟨x, y, z⟩)))

lemma length_ndgrid_plane (xs ys : List ℝ) (z : ℝ) :
    (ys.flatMap fun y => xs.map fun x => (⟨x, y, z⟩ : Vec3)).length =
      xs.length * ys.length := by
  induction ys with
  | nil => simp
  | cons y ys ih =>
    simp only [List.flatMap_cons, List.length_append, List.length_map, ih,
      List.length_cons]
    ring

lemma length_ndgrid (xs ys zs : List ℝ) :
    (ndgrid xs ys zs).length = xs.length * ys.length * zs.length := by
  unfold ndgrid
  induction zs with
  | nil => simp
  | cons z zs ih =>
    simp only [List.flatMap_cons, List.length_append, ih, List.length_cons,
      length_ndgrid_plane]
    ring

lemma length_linspace (a b : ℝ) (n : ℕ) : (linspace a b n).length = n := by
  simp [linspace]

lemma mem_ndgrid_z (xs ys : List ℝ) (c : ℝ) (p : Vec3)
    (hp : p ∈ ndgrid xs ys [c]) : p.z = c := by
  unfold ndgrid at hp
  simp only [List.mem_flatMap, List.mem_map, List.mem_singleton] at hp
  obtain ⟨z, hz, y, hy, x, hx, rfl⟩ := hp
  exact hz

/-- Claim C6: the grid built from x = linspace(-50, 50, 100),
y = linspace(-50, 50, 100) and fixed third coordinate z = 0 consists of
exactly 10000 three-dimensional points, every one with third coordinate
equal to 0. -/
theorem C6_grid_count_and_plane :
    (ndgrid (linspace (-50) 50 100) (linspace (-50) 50 100) [0]).length = 10000 ∧
      List.Forall (fun p => p.z = 0)
        (ndgrid (linspace (-50) 50 100) (linspace (-50) 50 100) [0]) := by
  constructor
  · rw [length_ndgrid, length_linspace]
    simp
  · rw [List.forall_iff_forall_mem]
    intro p hp
    exact mem_ndgrid_z _ _ _ p hp

/-
Pipeline from slider parameters to the arguments handed to the external
field evaluator, embedded from plot_fields of the vector-potential
notebook.  The external library itself is out of scope; what the notebook
controls is exactly which constructor and query arguments it passes.
-/

/-- The vacuum permeability constant imported from scipy.constants; its
numeric value plays no role in any claim. -/
noncomputable def mu_0 : ℝ :=
  4 * π / 10000000

/-- Arguments the notebook passes to static.MagneticDipoleWholeSpace. -/
structure DipoleSpec where
  mu : ℝ
  location : Vec3
  orientation : Vec3
  moment : ℝ

/-- Arguments the notebook passes to static.CircularLoopWholeSpace. -/
structure LoopSpec where
  mu : ℝ
  location : Vec3
  orientation : Vec3
  current : ℝ
  radius : ℝ

/-- Everything plot_fields hands to the external field evaluator: the two
constructor argument sets and the grid points given to vector_potential. -/
structure EvalArgs where
  dipole : DipoleSpec
  loop : LoopSpec
  points : List Vec3

/-- The interaction-control values of the vector-potential notebook, the
keyword parameters of plot_fields. -/
structure Params where
  moment : ℝ
  current : ℝ
  radius : ℝ
  location_x : ℝ
  location_y : ℝ
  location_z : ℝ
  orientation_x : ℝ
  orientation_y : ℝ
  orientation_z : ℝ

/-- The argument-assembly part of plot_fields, embedded from

    mu = mu_0
    location = np.r_[location_x, location_y, location_z]
    orientation = np.r_[orientation_x, orientation_y, orientation_z]
    dipole = static.MagneticDipoleWholeSpace(mu, location, orientation, moment)
    loop = static.CircularLoopWholeSpace(mu, location, orientation, current, radius)
    x = np.linspace(-50, 50, 100); y = np.linspace(-50, 50, 100)
    xyz = utils.ndgrid([x, y, np.r_[0]])
    a_dipole = dipole.vector_potential(xyz); a_loop = loop.vector_potential(xyz)
-/
noncomputable def plot_fields_args (p : Params) : EvalArgs where
  dipole :=
    { mu := mu_0
      location := ⟨p.location_x, p.location_y, p.location_z⟩
      orientation := ⟨p.orientation_x, p.orientation_y, p.orientation_z⟩
      moment := p.moment }
  loop :=
    { mu := mu_0
      location := ⟨p.location_x, p.location_y, p.location_z⟩
      orientation := ⟨p.orientation_x, p.orientation_y, p.orientation_z⟩
      current := p.current
      radius := p.radius }
  points := ndgrid (linspace (-50) 50 100) (linspace (-50) 50 100) [0]

/-- The nine interaction controls exposed by the interactive call of the
vector-potential notebook. -/
inductive Control where
  | moment
  | current
  | radius
  | location_x
  | location_y
  | location_z
  | orientation_x
  | orientation_y
  | orientation_z

/-- Changing a single interaction control: the parameter set after the
slider named by the control is moved to the value v. -/
def setControl : Control → ℝ → Params → Params
  | .moment, v, p => { p with moment := v }
  | .current, v, p => { p with current := v }
  | .radius, v, p => { p with radius := v }
  | .location_x, v, p => { p with location_x := v }
  | .location_y, v, p => { p with location_y := v }
  | .location_z, v, p => { p with location_z := v }
  | .orientation_x, v, p => { p with orientation_x := v }
  | .orientation_y, v, p => { p with orientation_y := v }
  | .orientation_z, v, p => { p with orientation_z := v }

/-- Spec-side description of the frame effect: the evaluator-argument
update that changes exactly the parameter derived from the moved control —
wherever that parameter is passed — and leaves every other constructor
argument and the grid points untouched. -/
def updateArgs : Control → ℝ → EvalArgs → EvalArgs
  | .moment, v, A => { A with dipole := { A.dipole with moment := v } }
  | .current, v, A => { A with loop := { A.loop with current := v } }
  | .radius, v, A => { A with loop := { A.loop with radius := v } }
  | .location_x, v, A =>
    { A with
      dipole := { A.dipole with location := { A.dipole.location with x := v } }
      loop := { A.loop with location := { A.loop.location with x := v } } }
  | .location_y, v, A =>
    { A with
      dipole := { A.dipole with location := { A.dipole.location with y := v } }
      loop := { A.loop with location := { A.loop.location with y := v } } }
  | .location_z, v, A =>
    { A with
      dipole := { A.dipole with location := { A.dipole.location with z := v } }
      loop := { A.loop with location := { A.loop.location with z := v } } }
  | .orientation_x, v, A =>
    { A with
      dipole :=
        { A.dipole with orientation := { A.dipole.orientation with x := v } }
      loop := { A.loop with orientation := { A.loop.orientation with x := v } } }
  | .orientation_y, v, A =>
    { A with
      dipole :=
        { A.dipole with orientation := { A.dipole.orientation with y := v } }
      loop := { A.loop with orientation := { A.loop.orientation with y := v } } }
  | .orientation_z, v, A =>
    { A with
      dipole :=
        { A.dipole with orientation := { A.dipole.orientation with z := v } }
      loop := { A.loop with orientation := { A.loop.orientation with z := v } } }

/-- Claim C8: re-running the pipeline after moving a single interaction
control invokes the field evaluator with exactly the one updated parameter,
wherever it is passed; every other parameter handed to the source
constructors and to the evaluator is unchanged from the previous run. -/
theorem C8_single_control_frame_effect (c : Control) (v : ℝ) (p : Params) :
    plot_fields_args (setControl c v p) = updateArgs c v (plot_fields_args p) := by
  cases c <;> rfl

/-
Interactive slider specifications.
-/

/-- A range-constrained numeric control: minimum, maximum and step. -/
structure Slider where
  lo : ℝ
  hi : ℝ
  step : ℝ

/-- ipywidgets default slider for a keyword whose Python default value is a
positive integer v and for which the interactive call supplies no range: an
IntSlider with minimum -v, maximum 3v and step 1.  The recorded widget
output in the notebook confirms this for moment:
IntSlider(value=1, description=moment, max=3, min=-1). -/
def defaultIntSlider (v : ℝ) : Slider :=
  ⟨-v, 3 * v, 1⟩

/-- Slider for moment: plot_fields defaults moment to 1 and the interactive
call of the vector-potential notebook gives no explicit range. -/
def moment_slider : Slider := defaultIntSlider 1

/-- Slider for current, analogous to the moment slider. -/
def current_slider : Slider := defaultIntSlider 1

/-- Slider for radius, from radius=(1.,40.,1.) in the interactive call. -/
def radius_slider : Slider := ⟨1, 40, 1⟩

/-- Sliders for the location components, from location_x=(-40.,40.,1.) and
the identical tuples for y and z. -/
def location_x_slider : Slider := ⟨-40, 40, 1⟩

def location_y_slider : Slider := ⟨-40, 40, 1⟩

def location_z_slider : Slider := ⟨-40, 40, 1⟩

/-- Sliders for the orientation components, from orientation_x=(0.,1.,0.1)
and the identical tuples for y and z. -/
def orientation_x_slider : Slider := ⟨0, 1, 0.1⟩

def orientation_y_slider : Slider := ⟨0, 1, 0.1⟩

def orientation_z_slider : Slider := ⟨0, 1, 0.1⟩

/-- Slider for inclination in the total-field notebook, from
inclination=(0.,67.,1.). -/
def inclination_slider : Slider := ⟨0, 67, 1⟩

/-- Slider for declination in the total-field notebook, from
declination=(0., 90.); a two-element tuple yields the FloatSlider default
step 0.1. -/
def declination_slider : Slider := ⟨0, 90, 0.1⟩

/-- Claim C9: the interactive numeric controls have exactly the documented
ranges and step sizes — moment over [-1, 3], radius over [1, 40] with step
1, inclination over [0, 67] with step 1, and declination over [0, 90]. -/
theorem C9_documented_slider_ranges :
    moment_slider.lo = -1 ∧ moment_slider.hi = 3 ∧
      radius_slider = ⟨1, 40, 1⟩ ∧
      inclination_slider = ⟨0, 67, 1⟩ ∧
      declination_slider.lo = 0 ∧ declination_slider.hi = 90 := by
  refine ⟨?_, ?_, rfl, rfl, rfl, rfl⟩
  · norm_num [moment_slider, defaultIntSlider]
  · norm_num [moment_slider, defaultIntSlider]

/-- A slider admits the value v when v lies between its bounds and is
reachable from the minimum in whole steps. -/
def sliderAdmits (s : Slider) (v : ℝ) : Prop :=
  s.lo ≤ v ∧ v ≤ s.hi ∧ ∃ k : ℕ, v = s.lo + k * s.step

/-- The parameter set with every orientation slider at 0 and all remaining
controls at the Python defaults of plot_fields. -/
def zeroOrientationParams : Params :=
  { moment := 1
    current := 1
    radius := 20
    location_x := 0
    location_y := 0
    location_z := 0
    orientation_x := 0
    orientation_y := 0
    orientation_z := 0 }

/-- Claim C10: every orientation slider of the vector-potential notebook
ranges over [0, 1] and admits the value 0, and at
orientation_x = orientation_y = orientation_z = 0 the orientation vector
passed to both the dipole and the loop constructor is the zero vector — the
non-zero-orientation invariant is violable at the public interface. -/
theorem C10_zero_orientation_reachable :
    (orientation_x_slider.lo = 0 ∧ orientation_x_slider.hi = 1) ∧
      (orientation_y_slider.lo = 0 ∧ orientation_y_slider.hi = 1) ∧
      (orientation_z_slider.lo = 0 ∧ orientation_z_slider.hi = 1) ∧
      sliderAdmits orientation_x_slider 0 ∧
      sliderAdmits orientation_y_slider 0 ∧
      sliderAdmits orientation_z_slider 0 ∧
      (plot_fields_args zeroOrientationParams).dipole.orientation = ⟨0, 0, 0⟩ ∧
      (plot_fields_args zeroOrientationParams).loop.orientation = ⟨0, 0, 0⟩ := by
  refine ⟨⟨rfl, rfl⟩, ⟨rfl, rfl⟩, ⟨rfl, rfl⟩, ?_, ?_, ?_, rfl, rfl⟩ <;>
    exact ⟨le_refl 0,
      by norm_num [orientation_x_slider, orientation_y_slider,
        orientation_z_slider],
      0,
      by norm_num [orientation_x_slider, orientation_y_slider,
        orientation_z_slider]⟩

end Geoana
